import Mathlib

/-!
Verification of the BrokerOps MT5 adapter (`src/adapters/mt5/adapter.py`)
against its natural-language specification.

The script is a sequential pipeline: fetch deal records from the MT5
terminal (`get_recent_deals`), derive a trace id and event type per record
(`sync_deals`), build a JSON payload and POST it (`post_economic_event`).
We embed the record types, the payload construction, and the control flow
of the fetch/post/sync functions.  Network I/O is modelled by an oracle
(`Net`): each HTTP POST consumes the oracle at the index given by the
number of calls made so far and appends the posted payload to a call log,
so the number and order of delivery attempts is observable.
Python floats are modelled as rationals; a Python dict field that may be
absent is modelled as an `Option`.
-/

/-- A raw MT5 deal record, as consumed via `deal.get(...)` in the script.
Every field access in the source uses `.get` with a default (or plain
`.get`, defaulting to `None`), so each field is optional. -/
structure DealRecord where
  ticket : Option Nat
  symbol : Option String
  volume : Option ℚ
  price : Option ℚ
  profit : Option ℚ
  commission : Option ℚ
  swap : Option ℚ
  time : Option ℚ
  comment : Option String
deriving DecidableEq, Repr

/-- The JSON payload built in `post_economic_event` (adapter.py lines 92-100). -/
structure EconomicEvent where
  traceId : String
  type : String
  grossRevenue : ℚ
  fees : ℚ
  costs : ℚ
  currency : String
  source : String
deriving DecidableEq, Repr

/-- Rendering of `deal.get("ticket", "unknown")` inside an f-string:
the ticket number rendered in decimal, or the literal `"unknown"`. -/
def ticketStr (d : DealRecord) : String :=
  match d.ticket with
  | some t => toString t
  | none => "unknown"

/-- The assignment `trace_id = deal.get("comment") or "mt5-" + ticket` (adapter.py line 131).
Python `or` takes the right operand when the left is falsy, i.e. when the
comment is absent (`None`) or the empty string. -/
def traceIdOf (d : DealRecord) : String :=
  match d.comment with
  | some c => if c = "" then "mt5-" ++ ticketStr d else c
  | none => "mt5-" ++ ticketStr d

/-- The assignment `event_type = "TRADE_EXECUTED" if profit >= 0 else "TRADE_EXECUTED"`
(adapter.py line 134), with `profit = deal.get("profit", 0)`. -/
def eventTypeOf (d : DealRecord) : String :=
  if 0 ≤ d.profit.getD 0 then "TRADE_EXECUTED" else "TRADE_EXECUTED"

/-- The Python built-in `abs` on a number: negate iff negative. -/
def pyAbs (x : ℚ) : ℚ := if x < 0 then -x else x

/-- The payload dict literal of `post_economic_event` (adapter.py lines 92-100):
`grossRevenue = data.get("profit", 0)`, `fees = abs(data.get("commission", 0))`,
`costs = abs(data.get("swap", 0))`, constant currency and source tags. -/
def mkPayload (trace_id : String) (event_type : String) (d : DealRecord) :
    EconomicEvent :=
  { traceId := trace_id
    type := event_type
    grossRevenue := d.profit.getD 0
    fees := pyAbs (d.commission.getD 0)
    costs := pyAbs (d.swap.getD 0)
    currency := "USD"
    source := "mt5" }

/-- The composed per-deal mapping performed by the `sync_deals` loop body
(adapter.py lines 126-137): derive the trace id and event type, then build
the payload from the deal dict. -/
def mapDeal (d : DealRecord) : EconomicEvent :=
  mkPayload (traceIdOf d) (eventTypeOf d) d

/-- An HTTP response as seen through the `requests` library: status code
and body text. -/
structure HttpResponse where
  status : Nat
  body : String
deriving DecidableEq, Repr

/-- Outcome of one `requests.post` call: either a response object, or a
raised exception (timeout, connection error, ...) carrying its message. -/
inductive HttpResult where
  | resp (r : HttpResponse)
  | exn (msg : String)
deriving DecidableEq, Repr

/-- The `Response.ok` predicate of the `requests` library: true iff the status code is
below 400. -/
def respOk (r : HttpResponse) : Bool := r.status < 400

/-- The network environment: a log of payloads POSTed so far and an oracle
giving the outcome of the n-th POST call. -/
structure Net where
  calls : List EconomicEvent
  oracle : Nat → HttpResult

/-- One `requests.post` invocation: consult the oracle at the current call
index and record the posted payload in the log. -/
def netPost (net : Net) (payload : EconomicEvent) : HttpResult × Net :=
  (net.oracle net.calls.length,
   { net with calls := net.calls ++ [payload] })

/-- The function `post_economic_event` (adapter.py lines 90-116): build the payload,
issue a single POST inside `try/except`; return `resp.ok` on a response,
`False` when the call raises. -/
def post_economic_event (net : Net) (trace_id : String) (event_type : String)
    (d : DealRecord) : Bool × Net :=
  let payload := mkPayload trace_id event_type d
  let res := netPost net payload
  match res.1 with
  | HttpResult.resp r => (respOk r, res.2)
  | HttpResult.exn _ => (false, res.2)

/-- The function `get_recent_deals` (adapter.py lines 62-87), real-terminal path: the
source returning `None` (`history_deals_get` failure) is turned into the
empty list after printing a message; otherwise the deal list is returned
as-is. The source outcome is the parameter: `none` models an unreachable
source. -/
def get_recent_deals (source : Option (List DealRecord)) : List DealRecord :=
  match source with
  | none => []
  | some ds => ds

/-- The `for deal in deals` loop of `sync_deals` (adapter.py lines 126-137):
for each deal in order, derive trace id and event type and call
`post_economic_event`; the returned boolean is discarded. -/
def syncLoop (net : Net) (deals : List DealRecord) : Net :=
  deals.foldl
    (fun acc deal =>
      (post_economic_event acc (traceIdOf deal) (eventTypeOf deal) deal).2)
    net

/-- The function `sync_deals` (adapter.py lines 119-137): fetch the batch via
`get_recent_deals`, then run the delivery loop over it. -/
def sync_deals (net : Net) (source : Option (List DealRecord)) : Net :=
  syncLoop net (get_recent_deals source)

/-- A concrete always-succeeding oracle: every POST yields status 200. -/
def okOracle : Nat → HttpResult := fun _ => HttpResult.resp ⟨200, "ok"⟩

/-- A fresh network with no calls made and an all-200 oracle. -/
def netOk : Net := ⟨[], okOracle⟩

/-- A concrete deal: ticket 1, profit 10, commission -0.5, swap -0.1,
empty comment. -/
def deal1 : DealRecord :=
  { ticket := some 1, symbol := some "EURUSD", volume := some (1/10)
    price := some (217/200), profit := some 10, commission := some (-1/2)
    swap := some (-1/10), time := some 0, comment := some "" }

example : mapDeal deal1 =
    { traceId := "mt5-1", type := "TRADE_EXECUTED", grossRevenue := 10
      fees := 1/2, costs := 1/10, currency := "USD", source := "mt5" } := by
  norm_num [mapDeal, mkPayload, traceIdOf, eventTypeOf, ticketStr, deal1, pyAbs]
  rfl

/-- An oracle whose every call raises a timeout exception. -/
def exnOracle : Nat → HttpResult := fun _ => HttpResult.exn "timeout"

/-- A fresh network whose every POST raises a timeout exception. -/
def netExn : Net := ⟨[], exnOracle⟩

/-- An oracle that always answers with HTTP status 400. -/
def oracle400 : Nat → HttpResult := fun _ => HttpResult.resp ⟨400, "bad request"⟩

/-- A fresh network whose every POST is answered with status 400. -/
def net400 : Net := ⟨[], oracle400⟩

/-- An oracle whose first call times out and whose subsequent calls succeed
with status 200: the environment in which a retrying client would succeed
on its second attempt. -/
def retryOracle : Nat → HttpResult :=
  fun n =>
    match n with
    | 0 => HttpResult.exn "timeout"
    | _ + 1 => HttpResult.resp ⟨200, "ok"⟩

/-- A fresh network governed by `retryOracle`. -/
def netRetry : Net := ⟨[], retryOracle⟩

/-- A deal dict in which every optional field is absent. -/
def dealMissing : DealRecord :=
  { ticket := none, symbol := none, volume := none, price := none
    profit := none, commission := none, swap := none, time := none
    comment := none }

/-- A deal with ticket 12345678 and empty comment, as in the spec example. -/
def dealC3a : DealRecord :=
  { ticket := some 12345678, symbol := none, volume := none, price := none
    profit := none, commission := none, swap := none, time := none
    comment := some "" }

/-- A deal whose comment is the order tag, as in the spec example. -/
def dealC3b : DealRecord :=
  { ticket := some 99, symbol := none, volume := none, price := none
    profit := none, commission := none, swap := none, time := none
    comment := some "order-42" }

/-- The Python `abs` agrees with the mathematical absolute value on ℚ. -/
theorem pyAbs_eq_abs (x : ℚ) : pyAbs x = |x| := by
  unfold pyAbs
  split_ifs with h
  · exact (abs_of_neg h).symm
  · exact (abs_of_nonneg (not_lt.mp h)).symm

/-- Whatever the oracle answers, one call to `post_economic_event` appends
exactly the built payload to the call log and leaves the oracle unchanged. -/
theorem post_net_eq (net : Net) (t e : String) (d : DealRecord) :
    (post_economic_event net t e d).2 =
      { net with calls := net.calls ++ [mkPayload t e d] } := by
  simp only [post_economic_event, netPost]
  cases net.oracle net.calls.length <;> rfl

/-- The call log after the `sync_deals` loop is the previous log followed by
the payloads of the batch, mapped in source order. -/
theorem syncLoop_calls (deals : List DealRecord) (net : Net) :
    (syncLoop net deals).calls = net.calls ++ deals.map mapDeal := by
  induction deals generalizing net with
  | nil => simp [syncLoop]
  | cons d ds ih =>
    have h1 : syncLoop net (d :: ds) =
        syncLoop (post_economic_event net (traceIdOf d) (eventTypeOf d) d).2 ds := rfl
    rw [h1, ih, post_net_eq]
    simp [mapDeal]

/-- C2: for every input deal and whatever trace id and event type the caller
passes, the payload built by `post_economic_event` has nonnegative `fees`
and `costs`; specifically `fees` is the absolute value of the commission
field and `costs` the absolute value of the swap field (each defaulting to
zero when absent), regardless of their signs. -/
theorem claim_C2_abs_invariant (t e : String) (d : DealRecord) :
    0 ≤ (mkPayload t e d).fees ∧ 0 ≤ (mkPayload t e d).costs ∧
    (mkPayload t e d).fees = |d.commission.getD 0| ∧
    (mkPayload t e d).costs = |d.swap.getD 0| := by
  refine ⟨?_, ?_, ?_, ?_⟩ <;> simp [mkPayload, pyAbs_eq_abs, abs_nonneg]

/-- C3: the trace id of a mapped deal is the comment whenever the comment
is present and non-empty, and otherwise the ticket rendering prefixed with
the source tag; concretely, an empty-comment deal with ticket 12345678
gets trace id "mt5-12345678" and a deal commented "order-42" gets trace id
"order-42". -/
theorem claim_C3_trace_id :
    (∀ d : DealRecord, ∀ c : String, d.comment = some c → c ≠ "" →
      traceIdOf d = c) ∧
    (∀ d : DealRecord, d.comment = none ∨ d.comment = some "" →
      traceIdOf d = "mt5-" ++ ticketStr d) ∧
    traceIdOf dealC3a = "mt5-12345678" ∧ traceIdOf dealC3b = "order-42" := by
  refine ⟨?_, ?_, rfl, rfl⟩
  · intro d c hc hne
    simp [traceIdOf, hc, hne]
  · rintro d (hc | hc) <;> simp [traceIdOf, hc]

/-- Witness for C3 at the two concrete deals of the spec example. -/
theorem claim_C3_trace_id_witness :
    traceIdOf dealC3b = "order-42" ∧
    traceIdOf dealC3a = "mt5-" ++ ticketStr dealC3a :=
  ⟨claim_C3_trace_id.1 dealC3b "order-42" rfl (by decide),
   claim_C3_trace_id.2.1 dealC3a (Or.inr rfl)⟩

/-- C4: the per-deal mapping is total and deterministic: it is a plain
function on deal records (defined for every record, producing exactly one
payload), missing numeric fields default to zero in the output, and equal
inputs give equal outputs. -/
theorem claim_C4_mapper_total (d : DealRecord) :
    (d.profit = none → (mapDeal d).grossRevenue = 0) ∧
    (d.commission = none → (mapDeal d).fees = 0) ∧
    (d.swap = none → (mapDeal d).costs = 0) ∧
    (∀ d2 : DealRecord, d = d2 → mapDeal d = mapDeal d2) := by
  refine ⟨?_, ?_, ?_, ?_⟩
  · intro h; simp [mapDeal, mkPayload, h]
  · intro h; simp [mapDeal, mkPayload, h, pyAbs]
  · intro h; simp [mapDeal, mkPayload, h, pyAbs]
  · intro d2 h; rw [h]

/-- Witness for C4 at the all-fields-missing deal. -/
theorem claim_C4_mapper_total_witness :
    (mapDeal dealMissing).grossRevenue = 0 ∧
    (mapDeal dealMissing).fees = 0 ∧ (mapDeal dealMissing).costs = 0 :=
  ⟨(claim_C4_mapper_total dealMissing).1 rfl,
   (claim_C4_mapper_total dealMissing).2.1 rfl,
   (claim_C4_mapper_total dealMissing).2.2.1 rfl⟩

/-- C9: every mapped event has type "TRADE_EXECUTED"; the conditional on
the profit sign in the source yields the same string in both branches, so
the profit sign (positive, zero or negative) is irrelevant. -/
theorem claim_C9_event_type (d : DealRecord) :
    (mapDeal d).type = "TRADE_EXECUTED" ∧
    eventTypeOf d = "TRADE_EXECUTED" := by
  have h : eventTypeOf d = "TRADE_EXECUTED" := by
    unfold eventTypeOf; split <;> rfl
  exact ⟨h, h⟩

/-- C10: `post_economic_event` always returns a boolean (the embedding is a
total function even when the oracle raises): the result is `resp.ok` of the
response when the call returns one, `false` when the call raises, and it is
`true` exactly when the call returned a response with an ok (below 400)
status. -/
theorem claim_C10_post_total (net : Net) (t e : String) (d : DealRecord) :
    (∀ r : HttpResponse, net.oracle net.calls.length = HttpResult.resp r →
      (post_economic_event net t e d).1 = respOk r) ∧
    (∀ msg : String, net.oracle net.calls.length = HttpResult.exn msg →
      (post_economic_event net t e d).1 = false) ∧
    ((post_economic_event net t e d).1 = true ↔
      ∃ r : HttpResponse, net.oracle net.calls.length = HttpResult.resp r ∧
        respOk r = true) := by
  refine ⟨?_, ?_, ?_⟩
  · intro r h
    simp [post_economic_event, netPost, h]
  · intro msg h
    simp [post_economic_event, netPost, h]
  · cases h : net.oracle net.calls.length with
    | resp r => simp [post_economic_event, netPost, h]
    | exn msg => simp [post_economic_event, netPost, h]

/-- Witness for C10: success against the all-200 network, failure against
the always-raising network. -/
theorem claim_C10_post_total_witness :
    (post_economic_event netOk "t" "e" dealMissing).1 = respOk ⟨200, "ok"⟩ ∧
    (post_economic_event netExn "t" "e" dealMissing).1 = false :=
  ⟨(claim_C10_post_total netOk "t" "e" dealMissing).1 ⟨200, "ok"⟩ rfl,
   (claim_C10_post_total netExn "t" "e" dealMissing).2.1 "timeout" rfl⟩

/-- C6: a delivery answered with a 4xx status makes exactly one HTTP call
(the log grows by exactly the one payload) and surfaces failure
immediately: `post_economic_event` returns `false`. -/
theorem claim_C6_no_retry_on_4xx (net : Net) (t e : String) (d : DealRecord)
    (r : HttpResponse) (h : net.oracle net.calls.length = HttpResult.resp r)
    (h4 : 400 ≤ r.status) (_h5 : r.status < 500) :
    (post_economic_event net t e d).1 = false ∧
    (post_economic_event net t e d).2.calls = net.calls ++ [mkPayload t e d] := by
  constructor
  · have hlt : ¬ r.status < 400 := not_lt.mpr h4
    have hok : respOk r = false := by
      simp only [respOk, decide_eq_false_iff_not]
      exact hlt
    simp [post_economic_event, netPost, h, hok]
  · rw [post_net_eq net t e d]

/-- Witness for C6 at a network answering status 400. -/
theorem claim_C6_no_retry_on_4xx_witness :
    (post_economic_event net400 "t" "e" dealMissing).1 = false ∧
    (post_economic_event net400 "t" "e" dealMissing).2.calls =
      net400.calls ++ [mkPayload "t" "e" dealMissing] :=
  claim_C6_no_retry_on_4xx net400 "t" "e" dealMissing ⟨400, "bad request"⟩ rfl
    (by decide) (by decide)

/-- C5 counterexample: in an environment where the first POST times out and
a second attempt would succeed with status 200, `post_economic_event`
reports failure after exactly one HTTP call — there is no second or third
attempt and no backoff, refuting "delivery is attempted up to 3 times ...
on transient failures". -/
theorem claim_C5_counterexample :
    (post_economic_event netRetry "t" "TRADE_EXECUTED" dealMissing).1 = false ∧
    (post_economic_event netRetry "t" "TRADE_EXECUTED" dealMissing).2.calls.length = 1 ∧
    retryOracle 1 = HttpResult.resp ⟨200, "ok"⟩ :=
  ⟨rfl, rfl, rfl⟩

/-- C5 (amended): delivery of an event is attempted exactly once, with no
retry and no backoff; a delivery whose single attempt raises (timeout,
connection refused) is reported as failed — `post_economic_event` returns
`false` — and nothing is marked delivered (the adapter keeps no delivery
state at all). -/
theorem claim_C5_single_attempt (net : Net) (t e : String) (d : DealRecord) :
    (post_economic_event net t e d).2.calls = net.calls ++ [mkPayload t e d] ∧
    (∀ msg : String, net.oracle net.calls.length = HttpResult.exn msg →
      (post_economic_event net t e d).1 = false) := by
  constructor
  · rw [post_net_eq net t e d]
  · intro msg h
    simp [post_economic_event, netPost, h]

/-- Witness for the amended C5 at the always-timing-out network. -/
theorem claim_C5_single_attempt_witness :
    (post_economic_event netExn "t" "e" dealMissing).2.calls =
      netExn.calls ++ [mkPayload "t" "e" dealMissing] ∧
    (post_economic_event netExn "t" "e" dealMissing).1 = false :=
  ⟨(claim_C5_single_attempt netExn "t" "e" dealMissing).1,
   (claim_C5_single_attempt netExn "t" "e" dealMissing).2 "timeout" rfl⟩

/-- C7 counterexample: with the deal source unreachable (`none`), the sync
run completes normally with no calls made and is indistinguishable from a
run over an empty batch — the run is neither aborted nor does it surface a
failure, refuting "the entire sync run is aborted ... surfaced as a
failure, not treated as an empty batch". -/
theorem claim_C7_counterexample :
    sync_deals netOk none = netOk ∧
    sync_deals netOk none = sync_deals netOk (some []) :=
  ⟨rfl, rfl⟩

/-- C7 (amended): if the deal source is unreachable at the fetch step,
`get_recent_deals` swallows the failure and returns the empty list, so
`sync_deals` processes zero records and completes normally, exactly as it
does on an empty batch; the unavailability is only printed, never surfaced
to the caller. -/
theorem claim_C7_empty_batch (net : Net) :
    get_recent_deals none = [] ∧ sync_deals net none = net ∧
    sync_deals net none = sync_deals net (some []) :=
  ⟨rfl, rfl, rfl⟩

/-- C8 counterexample: a batch containing the same deal (same ticket id)
twice leads to two delivery attempts in one run — the call log holds the
identical payload twice — refuting "duplicates within the fetched batch are
deduplicated before delivery, so at most one delivery is attempted per
distinct ticket id per run". -/
theorem claim_C8_counterexample :
    (sync_deals netOk (some [deal1, deal1])).calls =
      [mapDeal deal1, mapDeal deal1] ∧
    (sync_deals netOk (some [deal1, deal1])).calls.length = 2 :=
  ⟨rfl, rfl⟩

/-- C8 (amended): deal records are processed in the order returned by the
source, with exactly one delivery attempt per record and no in-batch
deduplication: the call log after a run is the previous log followed by
the payloads of the batch mapped in order, so a ticket id appearing twice
is delivered twice. -/
theorem claim_C8_order_no_dedup (net : Net) (deals : List DealRecord) :
    (sync_deals net (some deals)).calls = net.calls ++ deals.map mapDeal :=
  syncLoop_calls deals net

/-- C1 counterexample: with an all-success endpoint, syncing the one-deal
batch delivers it, and running the identical sync again delivers the very
same payload a second time — the second run makes one new delivery, not
zero, and the already-delivered ticket is re-delivered, refuting the
idempotence claim. -/
theorem claim_C1_counterexample :
    (sync_deals netOk (some [deal1])).calls = [mapDeal deal1] ∧
    (sync_deals (sync_deals netOk (some [deal1])) (some [deal1])).calls =
      [mapDeal deal1, mapDeal deal1] :=
  ⟨rfl, rfl⟩

/-- C1 (amended): `sync_deals` keeps no record of prior deliveries, so
running it twice over the same batch re-posts every record: after two runs
the call log contains each payload of the batch twice, one delivery
attempt per record per run; nothing is counted as already synced, and
repeated runs over overlapping windows re-deliver already-delivered
tickets (any deduplication is delegated to the remote service via the
traceId field). -/
theorem claim_C1_no_idempotency (net : Net) (deals : List DealRecord) :
    (sync_deals (sync_deals net (some deals)) (some deals)).calls =
      net.calls ++ deals.map mapDeal ++ deals.map mapDeal := by
  show (syncLoop (syncLoop net deals) deals).calls = _
  rw [syncLoop_calls, syncLoop_calls]
